import Mathlib

/-!
Verification of the diagram-generation pipeline in `src/diagram_generator.py`
and the template gallery in `src/templates.py`.

Python strings are embedded as `List Char`; the Python string operations used
by the code (`strip`, `rstrip`, `split`, `join`, `in`, `endswith`, `replace`)
are defined below with Python semantics (ASCII whitespace set).
-/

namespace CCAgno

/-- Convert a Lean string literal to the `List Char` representation. -/
def cs (s : String) : List Char := s.data

/-- The ASCII whitespace characters removed by Python `str.strip` / `str.rstrip`. -/
def pyWs (c : Char) : Bool :=
  c == ' ' || c == '\t' || c == '\n' || c == '\r' || c == '\x0b' || c == '\x0c'

/-- Python `str.lstrip()`: drop leading whitespace. -/
def lstripChars (s : List Char) : List Char := s.dropWhile pyWs

/-- Python `str.rstrip()`: drop trailing whitespace. -/
def rstripChars (s : List Char) : List Char := (s.reverse.dropWhile pyWs).reverse

/-- Python `str.strip()`: drop leading and trailing whitespace. -/
def stripChars (s : List Char) : List Char := rstripChars (lstripChars s)

/-- Python `s.split(chr(10))`: split on newline; always returns at least one piece. -/
def splitNl : List Char → List (List Char)
  | [] => [[]]
  | c :: rest =>
    if c = '\n' then
      [] :: splitNl rest
    else
      match splitNl rest with
      | [] => [[c]]
      | l :: ls => (c :: l) :: ls

/-- Python newline `join`: concatenate the pieces with a newline between them. -/
def joinNl : List (List Char) → List Char
  | [] => []
  | [l] => l
  | l :: l2 :: ls => l ++ '\n' :: joinNl (l2 :: ls)

/-- Python substring membership `pat in s`. -/
def hasSub (pat : List Char) : List Char → Bool
  | [] => pat.isEmpty
  | c :: rest => pat.isPrefixOf (c :: rest) || hasSub pat rest

/-- Python `s.endswith(suf)`. -/
def endsWith (suf s : List Char) : Bool := suf.isSuffixOf s

/-- Fuel-driven worker for `pyReplace`; one unit of fuel per character of `s`
is enough because every step consumes at least one character. -/
def pyReplaceFuel (pat repl : List Char) : Nat → List Char → List Char
  | 0, s => s
  | _ + 1, [] => []
  | fuel + 1, c :: rest =>
    if pat.isPrefixOf (c :: rest) && !pat.isEmpty then
      repl ++ pyReplaceFuel pat repl fuel (List.drop (pat.length - 1) rest)
    else
      c :: pyReplaceFuel pat repl fuel rest

/-- Python `s.replace(pat, repl)`: replace every non-overlapping occurrence,
left to right. -/
def pyReplace (pat repl s : List Char) : List Char :=
  pyReplaceFuel pat repl s.length s

/-- The per-line patch applied by `_prepare_code` to the first line containing
the token `Diagram(` (source lines 91-111 of `src/diagram_generator.py`). -/
def patchFirstMatch (output_filename line : List Char) : List Char :=
  if hasSub (cs "name=") line then
    if hasSub (cs "filename=") line then
      line
    else
      let m := rstripChars line
      if endsWith (cs "):") m then
        m.take (m.length - 2) ++ cs ", filename=\"" ++ output_filename ++ cs "\"):"
      else if endsWith (cs ")") m then
        m.take (m.length - 1) ++ cs ", filename=\"" ++ output_filename ++ cs "\")"
      else
        m
  else
    pyReplace (cs "Diagram(")
      (cs "Diagram(name=\"Architecture Diagram\", filename=\"" ++ output_filename ++ cs "\", ")
      line

/-- The line loop of `_prepare_code`: patch the first line containing
`Diagram(`, pass every other line through, tracking the found flag. -/
def prepareLines (output_filename : List Char) : List (List Char) → Bool → List (List Char)
  | [], _ => []
  | l :: rest, found =>
    if hasSub (cs "Diagram(") l && !found then
      patchFirstMatch output_filename l :: prepareLines output_filename rest true
    else
      l :: prepareLines output_filename rest found

/-- `DiagramGenerator._prepare_code`: strip the code, split into lines, patch
the first `Diagram(` line, and re-join with newlines. -/
def prepare_code (diagram_code output_filename : List Char) : List Char :=
  joinNl (prepareLines output_filename (splitNl (stripChars diagram_code)) false)

/-! ## Sandboxed executor (`DiagramGenerator.generate_diagram`)

The subprocess call and the filesystem are modelled by explicit parameters:
what `subprocess.run` did (`SubprocOutcome`), whether `os.unlink` of the
temporary file raises, and whether `{output_dir}/{output_filename}.png`
exists after the run.  Paths are joined with a slash as `pathlib` does on
POSIX. -/

/-- Outcome of the `subprocess.run` call at source lines 50-56: it returned a
completed process, raised `TimeoutExpired`, or raised some other exception
(for example a missing interpreter). -/
inductive SubprocOutcome where
  | completed (returncode : Int) (stdoutS stderrS : String)
  | timedOut
  | raised (msg : String)
deriving DecidableEq

/-- The hard-coded `timeout=30` argument at source line 54. -/
def generate_diagram_timeout : Nat := 30

/-- The decision logic at source lines 61-70: exit code and file existence
determine the `(success, output_path, error_message)` triple.  Python
`result.stderr or result.stdout` picks `stderr` when it is non-empty. -/
def run_decision (output_dir output_filename stdoutS stderrS : String)
    (returncode : Int) (png_exists : Bool) : Bool × Option String × Option String :=
  if returncode = 0 then
    if png_exists then
      (true, some (output_dir ++ "/" ++ output_filename ++ ".png"), none)
    else
      (false, none, some "Diagram file was not created")
  else
    (false, none, some ("Execution error: " ++ (if stderrS = "" then stdoutS else stderrS)))

/-- Result of one `generate_diagram` invocation: the returned triple and
whether the temporary source file is still on disk afterwards. -/
structure ExecOutcome where
  result : Bool × Option String × Option String
  temp_file_remains : Bool
deriving DecidableEq

/-- Control flow of `generate_diagram` (source lines 36-75) after the
temporary file has been written.  `os.unlink` at line 59 runs only when
`subprocess.run` returns normally; there is no `finally` block, and both
`TimeoutExpired` and any other exception are caught at lines 72-75 and turned
into failure triples. -/
def generate_diagram (sp : SubprocOutcome) (unlink_fails : Bool) (unlink_msg : String)
    (png_exists : Bool) (output_dir output_filename : String) : ExecOutcome :=
  match sp with
  | .timedOut =>
      { result := (false, none, some "Diagram generation timed out (30s limit)")
        temp_file_remains := true }
  | .raised msg =>
      { result := (false, none, some ("Error generating diagram: " ++ msg))
        temp_file_remains := true }
  | .completed returncode stdoutS stderrS =>
      if unlink_fails then
        { result := (false, none, some ("Error generating diagram: " ++ unlink_msg))
          temp_file_remains := true }
      else
        { result := run_decision output_dir output_filename stdoutS stderrS returncode png_exists
          temp_file_remains := false }

/-- Modelled after the wording of the spec: the timeout failure message
parametrised by the `timeoutSeconds` value `n`, for comparison with the
message the code produces. -/
def timeout_message_spec (n : Nat) : String :=
  "Diagram generation timed out (" ++ toString n ++ "s limit)"

/-! ## Artifact store (`list_generated_diagrams`, `clear_outputs`)

The directory is modelled as the list of `*.png` paths that `glob` returns,
in order; `unlink_fails f` says whether deleting `f` raises. -/

/-- `DiagramGenerator.list_generated_diagrams` (source lines 117-122): return
the `*.png` files of the output directory. -/
def list_generated_diagrams (png_files : List String) : List String :=
  png_files

/-- `DiagramGenerator.clear_outputs` (source lines 124-127): unlink the
`*.png` files in order.  There is no exception handling in the loop, so the
first failing `unlink` aborts it: the result is the list of files still on
disk and whether an exception escaped. -/
def clear_run : List String → (String → Bool) → List String × Bool
  | [], _ => ([], false)
  | f :: rest, unlink_fails =>
      if unlink_fails f then
        (f :: rest, true)
      else
        clear_run rest unlink_fails

/-! ## Template gallery (`src/templates.py`)

Python dicts are embedded as association lists, which keeps insertion order
exactly as `list(dict.keys())` does. -/

/-- The `ARCHITECTURE_TEMPLATES` dict of `src/templates.py`. -/
def ARCHITECTURE_TEMPLATES : List (String × List (String × String)) :=
  [("Three-Tier Web Application (AWS)",
    [("description", "A scalable three-tier web application with load balancing, application servers, and database"),
     ("architecture_type", "cloud"),
     ("cloud_provider", "AWS"),
     ("components", "ALB, EC2 instances, RDS, S3, CloudFront")]),
   ("Microservices Architecture (Kubernetes)",
    [("description", "Modern microservices architecture with API gateway, multiple services, message queue, and monitoring"),
     ("architecture_type", "microservices"),
     ("cloud_provider", "GCP"),
     ("components", "GKE, Cloud Load Balancer, Cloud SQL, Pub/Sub, Cloud Monitoring")]),
   ("Serverless Application (AWS)",
    [("description", "Serverless architecture using Lambda functions, API Gateway, DynamoDB, and S3"),
     ("architecture_type", "serverless"),
     ("cloud_provider", "AWS"),
     ("components", "API Gateway, Lambda, DynamoDB, S3, CloudWatch, Cognito")]),
   ("Data Pipeline (AWS)",
    [("description", "Data processing pipeline with ingestion, transformation, storage, and analytics"),
     ("architecture_type", "data"),
     ("cloud_provider", "AWS"),
     ("components", "S3, Kinesis, Lambda, Glue, Redshift, Athena, QuickSight")]),
   ("Event-Driven Architecture (Azure)",
    [("description", "Event-driven system with event hub, functions, and storage"),
     ("architecture_type", "event-driven"),
     ("cloud_provider", "Azure"),
     ("components", "Event Hub, Azure Functions, Cosmos DB, Storage Account, Service Bus")]),
   ("Machine Learning Pipeline (GCP)",
    [("description", "ML pipeline with training, deployment, and inference components"),
     ("architecture_type", "ml"),
     ("cloud_provider", "GCP"),
     ("components", "Vertex AI, Cloud Storage, BigQuery, Cloud Run, Pub/Sub")]),
   ("Multi-Region High Availability (AWS)",
    [("description", "Multi-region architecture with failover, replication, and global load balancing"),
     ("architecture_type", "cloud"),
     ("cloud_provider", "AWS"),
     ("components", "Route 53, CloudFront, ALB, EC2 Auto Scaling, RDS Multi-AZ, S3 Cross-Region Replication")]),
   ("CI/CD Pipeline",
    [("description", "Complete CI/CD pipeline with source control, build, test, and deployment stages"),
     ("architecture_type", "devops"),
     ("cloud_provider", "AWS"),
     ("components", "GitHub, CodePipeline, CodeBuild, CodeDeploy, ECS, CloudWatch")])]

/-- `get_template_names` (source lines 57-59): `list(ARCHITECTURE_TEMPLATES.keys())`. -/
def get_template_names : List String :=
  ARCHITECTURE_TEMPLATES.map Prod.fst

/-- `get_template` (source lines 62-64): `ARCHITECTURE_TEMPLATES.get(name, \x7b\x7d)`. -/
def get_template (name : String) : List (String × String) :=
  (ARCHITECTURE_TEMPLATES.lookup name).getD []

/-! ## Helper lemmas about the Python string operations -/

/-- A pattern that is a prefix of a string is a substring of it. -/
theorem hasSub_of_isPrefixOf {pat s : List Char} (h : pat.isPrefixOf s = true) :
    hasSub pat s = true := by
  cases s with
  | nil =>
    cases pat with
    | nil => rfl
    | cons c rest => simp [List.isPrefixOf] at h
  | cons c rest => simp [hasSub, h]

/-- Substring membership is preserved by consing a character in front. -/
theorem hasSub_cons {pat s : List Char} (c : Char) (h : hasSub pat s = true) :
    hasSub pat (c :: s) = true := by
  simp [hasSub, h]

/-- Substring membership is preserved by prepending any string. -/
theorem hasSub_append_left {pat s : List Char} (pre : List Char) (h : hasSub pat s = true) :
    hasSub pat (pre ++ s) = true := by
  induction pre with
  | nil => simpa using h
  | cons c rest ih => simpa using hasSub_cons c ih

/-- If `p ++ q` is a prefix of `s` then `q` is a substring of `s`. -/
theorem hasSub_of_append_isPrefixOf {p q s : List Char} (h : (p ++ q).isPrefixOf s = true) :
    hasSub q s = true := by
  rw [List.isPrefixOf_iff_prefix] at h
  obtain ⟨t, ht⟩ := h
  have hs : s = p ++ (q ++ t) := by rw [← ht, List.append_assoc]
  rw [hs]
  refine hasSub_append_left p (hasSub_of_isPrefixOf ?_)
  rw [List.isPrefixOf_iff_prefix]
  exact List.prefix_append q t

/-- A line containing the token `filename=` also contains the token `name=`,
because the latter is a suffix of the former; this is why the code's
`if name= in line` test also fires on lines with an explicit filename. -/
theorem hasSub_name_of_filename {l : List Char} (h : hasSub (cs "filename=") l = true) :
    hasSub (cs "name=") l = true := by
  induction l with
  | nil => exact absurd h (by decide)
  | cons c rest ih =>
    rw [hasSub, Bool.or_eq_true] at h
    rcases h with h | h
    · have hfn : cs "filename=" = cs "file" ++ cs "name=" := by decide
      rw [hfn] at h
      exact hasSub_of_append_isPrefixOf h
    · exact hasSub_cons c (ih h)

/-- Splitting on newlines always yields at least one piece. -/
theorem splitNl_ne_nil (s : List Char) : splitNl s ≠ [] := by
  cases s with
  | nil => simp [splitNl]
  | cons c rest =>
    simp only [splitNl]
    split
    · simp
    · split <;> simp

/-- Joining the newline split recovers the original string. -/
theorem joinNl_splitNl (s : List Char) : joinNl (splitNl s) = s := by
  induction s with
  | nil => rfl
  | cons c rest ih =>
    rcases hsp : splitNl rest with _ | ⟨l, ls⟩
    · exact absurd hsp (splitNl_ne_nil rest)
    · rw [hsp] at ih
      by_cases hc : c = '\n'
      · subst hc
        simp only [splitNl, if_pos rfl, hsp, joinNl]
        rw [ih]
        rfl
      · simp only [splitNl, if_neg hc, hsp]
        cases ls with
        | nil =>
          simp only [joinNl] at ih ⊢
          rw [ih]
        | cons l2 ls2 =>
          simp only [joinNl, List.cons_append] at ih ⊢
          rw [ih]

/-- A string without newlines splits into the single line it is. -/
theorem splitNl_no_newline {s : List Char} (h : '\n' ∉ s) : splitNl s = [s] := by
  induction s with
  | nil => rfl
  | cons c rest ih =>
    have hc : ¬ c = '\n' := fun e => h (by rw [e]; exact List.mem_cons_self _ _)
    have hr : '\n' ∉ rest := fun m => h (List.mem_cons_of_mem _ m)
    simp only [splitNl, if_neg hc, ih hr]

/-- Once the found flag is set, the line loop passes everything through. -/
theorem prepareLines_found (fn : List Char) (ls : List (List Char)) :
    prepareLines fn ls true = ls := by
  induction ls with
  | nil => rfl
  | cons l rest ih => simp [prepareLines, ih]

/-- If the first line containing `Diagram(` (when there is one) also contains
`filename=`, the line loop is the identity. -/
theorem prepareLines_id (fn : List Char) (ls : List (List Char))
    (h : Option.all (fun l => hasSub (cs "filename=") l)
          (ls.find? (fun x => hasSub (cs "Diagram(") x)) = true) :
    prepareLines fn ls false = ls := by
  induction ls with
  | nil => rfl
  | cons l rest ih =>
    by_cases hd : hasSub (cs "Diagram(") l = true
    · rw [List.find?_cons_of_pos _ hd] at h
      have hf : hasSub (cs "filename=") l = true := by simpa [Option.all] using h
      have hn : hasSub (cs "name=") l = true := hasSub_name_of_filename hf
      have hpatch : patchFirstMatch fn l = l := by
        rw [patchFirstMatch, if_pos hn, if_pos hf]
      simp [prepareLines, hd, hpatch, prepareLines_found]
    · rw [List.find?_cons_of_neg _ hd] at h
      simp [prepareLines, hd, ih h]

/-- Association-list lookup misses every key outside the key list. -/
theorem lookup_eq_none_of_not_mem {β : Type} (l : List (String × β)) (a : String)
    (h : a ∉ l.map Prod.fst) : l.lookup a = none := by
  induction l with
  | nil => rfl
  | cons kv rest ih =>
    obtain ⟨k, v⟩ := kv
    have hk : (a == k) = false := by
      simp only [beq_eq_false_iff_ne, ne_eq]
      intro e
      exact h (by simp [e])
    simp only [List.lookup_cons, hk]
    exact ih (fun m => h (List.mem_cons_of_mem _ m))

/-! ## Claim C1 -/

/-- C1 counterexample: the claim predicts that the line `Diagram("My App"):`
(a positional name, no filename) is patched to
`Diagram("My App", filename="diag1"):`.  The code tests for the literal token
`name=`, which a positional name does not contain, so it takes the
no-name branch and injects both a default name and the filename, producing
`Diagram(name="Architecture Diagram", filename="diag1", "My App"):`. -/
theorem prepare_code_positional_name_cex :
    prepare_code (cs "Diagram(\"My App\"):") (cs "diag1") =
      cs "Diagram(name=\"Architecture Diagram\", filename=\"diag1\", \"My App\"):" ∧
    prepare_code (cs "Diagram(\"My App\"):") (cs "diag1") ≠
      cs "Diagram(\"My App\", filename=\"diag1\"):" := by
  decide

/-- C1 (amended): only when the first `Diagram(` line textually contains the
token `name=` (and not `filename=`) does the patcher inject just a filename
argument; a line whose rstrip ends in `):` becomes the same line with
`, filename="{outputFilename}"` inserted before the `):`.  A positional name
without the `name=` token instead receives both a default name literal and
the filename, so the spec example yields
`Diagram(name="Architecture Diagram", filename="diag1", "My App"):`. -/
theorem prepare_code_name_kwarg_injects_filename (fn l : List Char)
    (hnl : '\n' ∉ l) (hls : lstripChars l = l) (hrs : rstripChars l = l)
    (hd : hasSub (cs "Diagram(") l = true)
    (hn : hasSub (cs "name=") l = true)
    (hf : hasSub (cs "filename=") l = false)
    (he : endsWith (cs "):") l = true) :
    prepare_code l fn = l.take (l.length - 2) ++ cs ", filename=\"" ++ fn ++ cs "\"):" ∧
    prepare_code (cs "Diagram(\"My App\"):") (cs "diag1") =
      cs "Diagram(name=\"Architecture Diagram\", filename=\"diag1\", \"My App\"):" := by
  constructor
  · have hstrip : stripChars l = l := by rw [stripChars, hls, hrs]
    have hpatch : patchFirstMatch fn l =
        l.take (l.length - 2) ++ cs ", filename=\"" ++ fn ++ cs "\"):" := by
      rw [patchFirstMatch, if_pos hn, if_neg (by simp [hf])]
      simp only [hrs, if_pos he]
    simp only [prepare_code, hstrip, splitNl_no_newline hnl]
    simp [prepareLines, hd, hpatch, joinNl]
  · decide

/-- C1 witness: the amended theorem applied to `with Diagram(name="X"):`. -/
theorem prepare_code_name_kwarg_injects_filename_witness :
    prepare_code (cs "with Diagram(name=\"X\"):") (cs "diag1") =
      (cs "with Diagram(name=\"X\"):").take ((cs "with Diagram(name=\"X\"):").length - 2) ++
        cs ", filename=\"" ++ cs "diag1" ++ cs "\"):" ∧
    prepare_code (cs "Diagram(\"My App\"):") (cs "diag1") =
      cs "Diagram(name=\"Architecture Diagram\", filename=\"diag1\", \"My App\"):" :=
  prepare_code_name_kwarg_injects_filename (cs "diag1") (cs "with Diagram(name=\"X\"):")
    (by decide) (by decide) (by decide) (by decide) (by decide) (by decide) (by decide)

/-! ## Claim C3 -/

/-- C3 counterexample: with an explicit filename the patcher is claimed to
return the input unchanged, but `_prepare_code` first strips the whole text,
so an input with a trailing newline is modified. -/
theorem prepare_code_filename_strip_cex :
    prepare_code (cs "with Diagram(filename=\"old\"):\n") (cs "diag2") =
      cs "with Diagram(filename=\"old\"):" ∧
    prepare_code (cs "with Diagram(filename=\"old\"):\n") (cs "diag2") ≠
      cs "with Diagram(filename=\"old\"):\n" := by
  decide

/-- C3 (amended): if the first line containing `Diagram(` also contains
`filename=`, the patcher returns the input with its leading and trailing
whitespace stripped; in particular the output equals the input whenever the
input has no surrounding whitespace. -/
theorem prepare_code_filename_noop (code fn : List Char)
    (h : Option.all (fun l => hasSub (cs "filename=") l)
          ((splitNl (stripChars code)).find? (fun x => hasSub (cs "Diagram(") x)) = true) :
    prepare_code code fn = stripChars code := by
  simp only [prepare_code]
  rw [prepareLines_id fn _ h, joinNl_splitNl]

/-- C3 witness: the amended theorem applied to the second spec example with a
trailing newline. -/
theorem prepare_code_filename_noop_witness :
    prepare_code (cs "with Diagram(name=\"X\", filename=\"old\"):\n") (cs "diag2") =
      stripChars (cs "with Diagram(name=\"X\", filename=\"old\"):\n") :=
  prepare_code_filename_noop (cs "with Diagram(name=\"X\", filename=\"old\"):\n") (cs "diag2")
    (by decide)

/-! ## Claim C7 -/

/-- C7 counterexample: with no `Diagram(` token anywhere the output is
claimed to equal the input, but the initial strip removes the trailing
newline. -/
theorem prepare_code_no_token_strip_cex :
    prepare_code (cs "print(1)\n") (cs "d") = cs "print(1)" ∧
    prepare_code (cs "print(1)\n") (cs "d") ≠ cs "print(1)\n" := by
  decide

/-- C7 (amended): when no line contains the token `Diagram(`, the patcher
returns the input with its leading and trailing whitespace stripped, and
hence the input itself whenever the input has no surrounding whitespace. -/
theorem prepare_code_no_token_noop (code fn : List Char)
    (h : (splitNl (stripChars code)).all (fun l => !(hasSub (cs "Diagram(") l)) = true) :
    prepare_code code fn = stripChars code := by
  have hnone : (splitNl (stripChars code)).find? (fun x => hasSub (cs "Diagram(") x) = none := by
    rw [List.find?_eq_none]
    intro x hx
    have hb := List.all_eq_true.mp h x hx
    simp only [Bool.not_eq_true'] at hb
    simp [hb]
  simp only [prepare_code]
  rw [prepareLines_id fn _ (by rw [hnone]; rfl), joinNl_splitNl]

/-- C7 witness: the amended theorem applied to a token-free two-line script. -/
theorem prepare_code_no_token_noop_witness :
    prepare_code (cs "import os\nprint(2)\n") (cs "arch") =
      stripChars (cs "import os\nprint(2)\n") :=
  prepare_code_no_token_noop (cs "import os\nprint(2)\n") (cs "arch") (by decide)

/-! ## Claim C8 -/

/-- C8 counterexample: the claim compares input and output lines, but the
initial strip also rewrites lines that do not contain the token: here the
first line `  foo` (token-free) loses its indentation. -/
theorem prepare_code_single_patch_cex :
    hasSub (cs "Diagram(") (cs "  foo") = false ∧
    (splitNl (cs "  foo\nDiagram(\"A\"):"))[0]? = some (cs "  foo") ∧
    (splitNl (prepare_code (cs "  foo\nDiagram(\"A\"):") (cs "d")))[0]? = some (cs "foo") ∧
    some (cs "foo") ≠ some (cs "  foo") := by
  decide

/-- C8 (amended): at the line level - after the initial strip - the patcher
changes at most one line: the output has exactly one line per input line, and
every line other than the first one containing the token `Diagram(` (the
`findIdx` position) is passed through verbatim, including later lines that
contain the token. -/
theorem prepare_code_single_patch (fn : List Char) (ls : List (List Char)) :
    (prepareLines fn ls false).length = ls.length ∧
    ∀ i : Nat, i ≠ ls.findIdx (fun l => hasSub (cs "Diagram(") l) →
      (prepareLines fn ls false)[i]? = ls[i]? := by
  induction ls with
  | nil => exact ⟨rfl, fun i _ => rfl⟩
  | cons l rest ih =>
    by_cases hd : hasSub (cs "Diagram(") l = true
    · have hout : prepareLines fn (l :: rest) false = patchFirstMatch fn l :: rest := by
        simp [prepareLines, hd, prepareLines_found]
      have hidx : (l :: rest).findIdx (fun x => hasSub (cs "Diagram(") x) = 0 := by
        simp [List.findIdx_cons, hd]
      refine ⟨by rw [hout]; simp, ?_⟩
      intro i hi
      rw [hidx] at hi
      cases i with
      | zero => exact absurd rfl hi
      | succ j => rw [hout]; simp [List.getElem?_cons_succ]
    · have hout : prepareLines fn (l :: rest) false = l :: prepareLines fn rest false := by
        simp [prepareLines, hd]
      have hidx : (l :: rest).findIdx (fun x => hasSub (cs "Diagram(") x) =
          rest.findIdx (fun x => hasSub (cs "Diagram(") x) + 1 := by
        simp [List.findIdx_cons, hd]
      refine ⟨by rw [hout]; simp [ih.1], ?_⟩
      intro i hi
      rw [hidx] at hi
      cases i with
      | zero => rw [hout]; simp [List.getElem?_cons_zero]
      | succ j =>
        rw [hout]
        simp only [List.getElem?_cons_succ]
        exact ih.2 j (fun e => hi (by rw [e]))

/-- C8 witness: in a snippet whose first and third lines contain the token,
line 2 (a later token line) is passed through verbatim. -/
theorem prepare_code_single_patch_witness :
    (prepareLines (cs "d")
      [cs "with Diagram(name=\"A\"):", cs "  node()", cs "with Diagram(name=\"B\"):"] false)[2]? =
      [cs "with Diagram(name=\"A\"):", cs "  node()", cs "with Diagram(name=\"B\"):"][2]? :=
  (prepare_code_single_patch (cs "d")
    [cs "with Diagram(name=\"A\"):", cs "  node()", cs "with Diagram(name=\"B\"):"]).2 2
    (by decide)

/-! ## Claim C2 -/

/-- C2 counterexample: on a non-zero exit the failure message is claimed to
be the captured standard-error text itself, but the code prefixes it with
`Execution error: `. -/
theorem run_decision_error_prefix_cex :
    (run_decision "outputs" "arch" "out text" "boom" 1 false).2.2 =
      some "Execution error: boom" ∧
    (run_decision "outputs" "arch" "out text" "boom" 1 false).2.2 ≠ some "boom" := by
  decide

/-- C2 (amended): exit code zero with the artifact present yields Success
carrying `{outputDir}/{outputFilename}.png`; exit code zero without the
artifact yields Failure "Diagram file was not created"; a non-zero exit
yields Failure whose message is `Execution error: ` followed by the captured
standard-error text if non-empty, else the captured standard-output text,
regardless of whether the artifact exists. -/
theorem run_decision_spec_cases (dir fn out err : String) (rc : Int) (png : Bool) :
    (rc = 0 → png = true →
      run_decision dir fn out err rc png = (true, some (dir ++ "/" ++ fn ++ ".png"), none)) ∧
    (rc = 0 → png = false →
      run_decision dir fn out err rc png = (false, none, some "Diagram file was not created")) ∧
    (rc ≠ 0 →
      run_decision dir fn out err rc png =
        (false, none, some ("Execution error: " ++ (if err = "" then out else err)))) := by
  refine ⟨fun h0 hp => ?_, fun h0 hp => ?_, fun hne => ?_⟩
  · simp [run_decision, h0, hp]
  · simp [run_decision, h0, hp]
  · simp [run_decision, hne]

/-- C2 witness: the amended theorem applied on the success branch. -/
theorem run_decision_spec_cases_witness :
    run_decision "outputs" "arch" "" "" 0 true =
      (true, some ("outputs" ++ "/" ++ "arch" ++ ".png"), none) :=
  (run_decision_spec_cases "outputs" "arch" "" "" 0 true).1 rfl rfl

/-! ## Claim C4 -/

/-- C4 counterexample: `os.unlink` runs between `subprocess.run` and the
decision logic with no `finally`, so on a timeout the temporary file is never
deleted, and a failing unlink is caught by the generic handler and replaces
what would have been a Success with a Failure. -/
theorem generate_diagram_cleanup_cex :
    (generate_diagram .timedOut false "" false "outputs" "arch").temp_file_remains = true ∧
    (generate_diagram (.completed 0 "" "") true "unlink failed" true "outputs" "arch").result =
      (false, none, some "Error generating diagram: unlink failed") ∧
    (generate_diagram (.completed 0 "" "") true "unlink failed" true "outputs" "arch").result ≠
      (true, some "outputs/arch.png", none) := by
  decide

/-- C4 (amended): the temporary source file is gone after an invocation
exactly when `subprocess.run` returned normally and the unlink succeeded; on
a timeout the file remains on disk (and the timeout failure is returned);
and when the unlink raises, the primary result is replaced by the Failure
`Error generating diagram: {message}`. -/
theorem generate_diagram_cleanup (sp : SubprocOutcome) (uf : Bool) (um : String)
    (png : Bool) (dir fn : String) :
    ((generate_diagram sp uf um png dir fn).temp_file_remains = false ↔
      (∃ rc out err, sp = .completed rc out err) ∧ uf = false) ∧
    (sp = .timedOut →
      (generate_diagram sp uf um png dir fn).temp_file_remains = true ∧
      (generate_diagram sp uf um png dir fn).result =
        (false, none, some "Diagram generation timed out (30s limit)")) ∧
    (∀ rc out err, sp = .completed rc out err → uf = true →
      (generate_diagram sp uf um png dir fn).result =
        (false, none, some ("Error generating diagram: " ++ um))) := by
  cases sp <;> cases uf <;> simp [generate_diagram]

/-- C4 witness: the amended theorem applied to a run that would otherwise
have succeeded but whose unlink failed. -/
theorem generate_diagram_cleanup_witness :
    (generate_diagram (.completed 0 "so" "se") true "boom" true "outputs" "arch").result =
      (false, none, some ("Error generating diagram: " ++ "boom")) :=
  (generate_diagram_cleanup (.completed 0 "so" "se") true "boom" true "outputs" "arch").2.2
    0 "so" "se" rfl rfl

/-! ## Claim C5 -/

/-- C5 counterexample: `generate_diagram` takes no timeout parameter - the
`subprocess.run` call hard-codes `timeout=30` and the handler hard-codes the
message - so a caller-requested limit such as 5 seconds can never appear in
the timeout message, which the claim would require. -/
theorem generate_diagram_timeout_cex :
    (generate_diagram .timedOut false "" false "outputs" "arch").result.2.2 =
      some (timeout_message_spec 30) ∧
    (generate_diagram .timedOut false "" false "outputs" "arch").result.2.2 ≠
      some (timeout_message_spec 5) := by
  decide

/-- C5 (amended): the timeout is the fixed constant 30 (not a parameter),
and every timed-out invocation returns the Failure message given by the spec
formula `Diagram generation timed out (Ns limit)` instantiated at N = 30. -/
theorem generate_diagram_timeout_message (uf : Bool) (um : String) (png : Bool)
    (dir fn : String) :
    generate_diagram_timeout = 30 ∧
    (generate_diagram .timedOut uf um png dir fn).result =
      (false, none, some (timeout_message_spec generate_diagram_timeout)) := by
  refine ⟨rfl, ?_⟩
  have hmsg : timeout_message_spec generate_diagram_timeout =
      "Diagram generation timed out (30s limit)" := by decide
  rw [hmsg]
  simp [generate_diagram]

/-! ## Claim C6 -/

/-- C6 counterexample: the claim predicts continue-on-error, so with only
`a.png` undeletable the remaining `b.png` should still be deleted; the loop
has no exception handling, so the first failing unlink aborts it and both
files remain. -/
theorem clear_outputs_abort_cex :
    clear_run ["a.png", "b.png"] (fun f => f == "a.png") = (["a.png", "b.png"], true) ∧
    list_generated_diagrams (clear_run ["a.png", "b.png"] (fun f => f == "a.png")).1 ≠
      ["a.png"] := by
  decide

/-- C6 (amended): when every unlink succeeds, `clear_outputs` deletes every
file and `list_generated_diagrams` then returns the empty list; but a single
failing unlink raises out of the loop, leaving the failing file and every
file after it undeleted (abort-on-error, not continue-on-error). -/
theorem clear_outputs_total_on_success (files : List String) (uf : String → Bool)
    (h : ∀ f ∈ files, uf f = false) :
    clear_run files uf = ([], false) ∧
    list_generated_diagrams (clear_run files uf).1 = [] := by
  induction files with
  | nil => exact ⟨rfl, rfl⟩
  | cons f rest ih =>
    have hf : uf f = false := h f (List.mem_cons_self _ _)
    have hr := ih (fun x hx => h x (List.mem_cons_of_mem _ hx))
    constructor
    · simp only [clear_run]
      rw [if_neg (by simp [hf])]
      exact hr.1
    · simp only [clear_run, list_generated_diagrams]
      rw [if_neg (by simp [hf])]
      rw [hr.1]

/-- C6 witness: the amended theorem applied to a two-file directory with no
unlink failures. -/
theorem clear_outputs_total_on_success_witness :
    clear_run ["a.png", "b.png"] (fun _ => false) = ([], false) ∧
    list_generated_diagrams (clear_run ["a.png", "b.png"] (fun _ => false)).1 = [] :=
  clear_outputs_total_on_success ["a.png", "b.png"] (fun _ => false) (by decide)

/-! ## Claim C9 -/

/-- C9: every invocation of the executor returns a triple (the model is a
total function: the `try`/`except` at source lines 36-75 converts
`TimeoutExpired` and every other exception into a return value), and exactly
one variant is populated: success carries a path and no message, failure
carries a message and no path. -/
theorem generate_diagram_result_exclusive (sp : SubprocOutcome) (uf : Bool) (um : String)
    (png : Bool) (dir fn : String) :
    ((generate_diagram sp uf um png dir fn).result.1 = true ∧
      ((generate_diagram sp uf um png dir fn).result.2.1).isSome = true ∧
      (generate_diagram sp uf um png dir fn).result.2.2 = none) ∨
    ((generate_diagram sp uf um png dir fn).result.1 = false ∧
      (generate_diagram sp uf um png dir fn).result.2.1 = none ∧
      ((generate_diagram sp uf um png dir fn).result.2.2).isSome = true) := by
  cases sp <;> cases uf <;> cases png <;>
    simp [generate_diagram, run_decision] <;> split_ifs <;> simp

/-! ## Claim C10 -/

/-- C10: looking up a template name that is not among `get_template_names`
returns the empty dict (`dict.get` with default) instead of raising. -/
theorem get_template_unknown_returns_empty (name : String)
    (h : name ∉ get_template_names) :
    get_template name = [] := by
  have hnone : ARCHITECTURE_TEMPLATES.lookup name = none :=
    lookup_eq_none_of_not_mem ARCHITECTURE_TEMPLATES name
      (by simpa [get_template_names] using h)
  simp [get_template, hnone]

/-- C10 witness: the theorem applied to a name outside the template gallery. -/
theorem get_template_unknown_returns_empty_witness :
    get_template "No Such Template" = [] :=
  get_template_unknown_returns_empty "No Such Template" (by decide)

end CCAgno
